import Mathlib

/-!
Verification of the synheart-cli core against its specification.

This file shallowly embeds the Go sources of the synheart-cli repository:

* `internal/scenario/scenario.go`, `engine.go` — scenario model, phase lookup,
  effective-config merging;
* `internal/generator/signals.go`, `correlations.go` — signal generators,
  the per-tick orchestration, event construction;
* the transport dispatcher (non-blocking fan-out with a drop counter);
* `internal/transport/websocket.go`, `sse.go`, `udp.go` and the legacy
  WebSocket server bundled with `internal/models/event.go` — broadcast paths;
* the raw (NDJSON bytes) replayer — ordering and inter-record pacing;
* the receiver (`handleImport`, `HSIExport.Validate`, `NewExportReceipt`).

Conventions of the embedding:

* Go `float64` values are modelled as `ℚ`.  Transcendental helpers
  (`math.Sin`, `math.Sqrt`) that only feed generated sample values are
  supplied as an explicit environment of functions `ℚ → ℚ`.
* `math/rand`'s seeded source is modelled as the deterministic stream of
  draws it yields: a list of draw values consumed left to right, exactly in
  the order the Go code samples them.  The pseudorandom function from seed
  to stream is not re-implemented; theorems are stated over the stream.
* Go `time.Duration` is an `ℤ` of nanoseconds; wall-clock instants are `ℤ`.
* Pointerful state (the `map[string]*SignalConfig` tables of a scenario) is
  modelled with an explicit store: a list of `SignalConfig` cells addressed
  by index, so that freshness and non-mutation are expressible.
* Fallible operations return `Option`.
-/

namespace Synheart

/-- Value of the untyped (`interface\x7b\x7d`) `Baseline`/`Noise` YAML fields:
either a scalar or a 3-vector, `Option` models Go `nil` (field absent). -/
inductive ConfigVal where
  | scalar (q : ℚ)
  | vec3 (x y z : ℚ)
  deriving DecidableEq, Repr

/-- A generated signal value: scalar, 3-vector, or enumerated label
(the `interface\x7b\x7d` returned by the generators in `signals.go`). -/
inductive SigValue where
  | num (q : ℚ)
  | vec (x y z : ℚ)
  | label (s : String)
  deriving DecidableEq, Repr

/-- `clamp` from `internal/generator/signals.go`. -/
def clamp (val lo hi : ℚ) : ℚ :=
  if val < lo then lo
  else if val > hi then hi
  else val

/-- `getFloat` from `signals.go`: a scalar passes through, anything else
(a vector, or an absent field) falls back to the default. -/
def getFloat (val : Option ConfigVal) (defaultVal : ℚ) : ℚ :=
  match val with
  | some (ConfigVal.scalar q) => q
  | _ => defaultVal

/-- `getVector3` from `signals.go`: a 3-vector passes through, anything else
falls back to the default vector. -/
def getVector3 (val : Option ConfigVal) (defaultVal : ℚ × ℚ × ℚ) : ℚ × ℚ × ℚ :=
  match val with
  | some (ConfigVal.vec3 x y z) => (x, y, z)
  | _ => defaultVal

/-- `SignalConfig` from `internal/scenario/scenario.go`.  Scalar override
fields keep Go's zero-value sentinels (`0` for numbers, `""` for strings);
`baseline`/`noise` keep `nil` as `Option.none`. -/
structure SignalConfig where
  baseline : Option ConfigVal := none
  noise : Option ConfigVal := none
  rate : String := ""
  unit : String := ""
  add : ℚ := 0
  multiply : ℚ := 0
  value : String := ""
  ramp : String := ""
  rampToBaseline : String := ""
  deriving DecidableEq, Repr

namespace GoDuration

/-- Numeric value of a digit run (most significant first). -/
def digitsVal (ds : List Char) : ℕ :=
  ds.foldl (fun a c => a * 10 + (c.toNat - 48)) 0

/-- Unit table of Go `time.ParseDuration`, in nanoseconds. -/
def unitTable : List (String × ℚ) :=
  [("ns", 1), ("us", 1000), ("µs", 1000), ("μs", 1000),
   ("ms", 1000000), ("s", 1000000000),
   ("m", 60000000000), ("h", 3600000000000)]

/-- Split a leading run of unit letters (Go scans to the next digit or dot). -/
def takeUnit (cs : List Char) : List Char × List Char :=
  cs.span (fun c => !c.isDigit && c != '.')

/-- One-or-more `number [fraction] unit` items of Go `time.ParseDuration`,
summed in exact rational nanoseconds.  The fuel argument bounds recursion by
the input length; Go's float64 rounding of fractional parts is idealised to
exact arithmetic (scenario files use integral durations). -/
def parseItems : ℕ → List Char → Option ℚ
  | _, [] => some 0
  | 0, _ => none
  | fuel + 1, cs =>
    let (ds, r1) := cs.span Char.isDigit
    let (fds, r2) :=
      match r1 with
      | '.' :: t => t.span Char.isDigit
      | _ => ([], r1)
    if ds.isEmpty && fds.isEmpty then none
    else
      let (us, r3) := takeUnit r2
      if us.isEmpty then none
      else
        match unitTable.lookup (String.mk us) with
        | none => none
        | some mult =>
          match parseItems fuel r3 with
          | none => none
          | some rest =>
            some (((digitsVal ds : ℚ) + (digitsVal fds : ℚ) / (10 ^ fds.length : ℚ)) * mult + rest)

/-- Go `time.ParseDuration`: optional sign, the literal `0`, else a sum of
`number unit` items; result in integer nanoseconds, `none` on error. -/
def parse (s : String) : Option ℤ :=
  let cs := s.toList
  let signed : Bool × List Char :=
    match cs with
    | '-' :: t => (true, t)
    | '+' :: t => (false, t)
    | _ => (false, cs)
  let neg := signed.1
  let body := signed.2
  if body = ['0'] then some 0
  else if body.isEmpty then none
  else
    match parseItems (body.length + 1) body with
    | none => none
    | some q => some (if neg then -q.floor else q.floor)

end GoDuration

/-- `ParseDuration` from `scenario.go`: `unlimited` or empty means unlimited
(`true` flag); an unparseable duration yields `(0, false)`. -/
def ParseDuration (s : String) : ℤ × Bool :=
  if s = "unlimited" ∨ s = "" then (0, true)
  else
    match GoDuration.parse s with
    | none => (0, false)
    | some d => (d, false)

/-- Store of `SignalConfig` heap cells.  Go's scenarios hold
`map[string]*SignalConfig`; a pointer is the index of a cell here, so that
allocation and (absence of) mutation are observable. -/
abbrev Store := List SignalConfig

/-- `Phase` from `scenario.go`; `overrides` maps a signal name to a pointer
(store index) of its override config. -/
structure Phase where
  name : String
  duration : String
  overrides : List (String × ℕ) := []
  deriving DecidableEq, Repr

/-- `Scenario` from `scenario.go`; `signals` maps a signal name to a pointer
(store index) of its base config. -/
structure Scenario where
  name : String := ""
  description : String := ""
  duration : String := ""
  defaultRate : String := ""
  signals : List (String × ℕ) := []
  phases : List Phase := []
  deriving DecidableEq, Repr

/-- Loop body of `Scenario.getCurrentPhase`: walk the phases accumulating
cumulative duration; an unlimited phase or one containing `elapsed` is
current; past the end, the last phase applies. -/
def getCurrentPhaseGo (elapsed : ℤ) : ℤ → List Phase → Option Phase
  | _, [] => none
  | currentTime, ph :: rest =>
    let pd := ParseDuration ph.duration
    if pd.2 then some ph
    else if elapsed < currentTime + pd.1 then some ph
    else
      match rest with
      | [] => some ph
      | _ => getCurrentPhaseGo elapsed (currentTime + pd.1) rest

/-- `Scenario.getCurrentPhase` from `scenario.go`. -/
def getCurrentPhase (s : Scenario) (elapsed : ℤ) : Option Phase :=
  getCurrentPhaseGo elapsed 0 s.phases

/-- The merged config built inside `Scenario.GetEffectiveConfig`:
`merged := *baseConfig` followed by the per-field sentinel checks.  `rate`
and `unit` have no corresponding check in the Go code and are therefore
always taken from the base. -/
def mergeOverride (baseConfig override : SignalConfig) : SignalConfig :=
  { baseConfig with
    add := if override.add ≠ 0 then override.add else baseConfig.add
    multiply := if override.multiply ≠ 0 then override.multiply else baseConfig.multiply
    value := if override.value ≠ "" then override.value else baseConfig.value
    ramp := if override.ramp ≠ "" then override.ramp else baseConfig.ramp
    rampToBaseline :=
      if override.rampToBaseline ≠ "" then override.rampToBaseline
      else baseConfig.rampToBaseline
    baseline := if override.baseline.isSome then override.baseline else baseConfig.baseline
    noise := if override.noise.isSome then override.noise else baseConfig.noise }

/-- `Scenario.GetEffectiveConfig` from `scenario.go` over the explicit store.
Returns the (possibly extended) store and the pointer to the effective
config: the base pointer when no phase override applies, or a freshly
allocated merged copy (`merged := *baseConfig; ...; return &merged`).
A dangling pointer (never produced by the loader) falls back to the base
pointer without merging. -/
def GetEffectiveConfig (store : Store) (s : Scenario) (signalName : String)
    (elapsed : ℤ) : Store × Option ℕ :=
  match s.signals.lookup signalName with
  | none => (store, none)
  | some baseRef =>
    match store[baseRef]? with
    | none => (store, none)
    | some baseConfig =>
      match getCurrentPhase s elapsed with
      | none => (store, some baseRef)
      | some currentPhase =>
        match currentPhase.overrides.lookup signalName with
        | none => (store, some baseRef)
        | some ovRef =>
          match store[ovRef]? with
          | none => (store, some baseRef)
          | some override =>
            (store ++ [mergeOverride baseConfig override], some store.length)

/-- Contents of the effective config: dereference the returned pointer in
the returned store. -/
def effectiveConfigVal (store : Store) (s : Scenario) (signalName : String)
    (elapsed : ℤ) : Option SignalConfig :=
  match GetEffectiveConfig store s signalName elapsed with
  | (store2, some r) => store2[r]?
  | (_, none) => none

/-- `Engine` from `internal/scenario/engine.go`: the scenario plus the start
instant; elapsed time is `now - startTime`. -/
structure Engine where
  scenario : Scenario
  startTime : ℤ
  deriving DecidableEq, Repr

/-- `Engine.GetSignalConfig`: effective config at the engine's current
elapsed time (`now` is the wall clock read by `GetElapsed`). -/
def engineGetSignalConfig (store : Store) (e : Engine) (now : ℤ)
    (signalName : String) : Store × Option ℕ :=
  GetEffectiveConfig store e.scenario signalName (now - e.startTime)

/-- `Engine.IsComplete`: false for unlimited scenarios, else elapsed has
reached the scenario duration. -/
def engineIsComplete (e : Engine) (now : ℤ) : Bool :=
  let pd := ParseDuration e.scenario.duration
  if pd.2 then false else decide (now - e.startTime ≥ pd.1)

/-- One draw of the seeded `math/rand` source: the Go code consumes the
single stream through typed accessors (`NormFloat64`, `Float64`, `Int63`,
`Intn`), so a draw is either float-valued or integer-valued. -/
inductive RVal where
  | f (q : ℚ)
  | i (n : ℤ)
  deriving DecidableEq, Repr

/-- The RNG state: the remaining stream of draws of the seeded source, a
deterministic function of the seed (the pseudorandom map itself is opaque
to this embedding). -/
abbrev Rng := List RVal

/-- Consume one float-valued draw (`NormFloat64` / `Float64`). -/
def nextF (rng : Rng) : ℚ × Rng :=
  match rng with
  | RVal.f q :: t => (q, t)
  | RVal.i n :: t => ((n : ℚ), t)
  | [] => (0, [])

/-- Consume one integer-valued draw (`Int63` / `Intn`). -/
def nextI (rng : Rng) : ℤ × Rng :=
  match rng with
  | RVal.i n :: t => (n, t)
  | RVal.f q :: t => (q.floor, t)
  | [] => (0, [])

/-- Transcendental helpers of the Go `math` package used by the generators;
supplied as an environment because they have no exact rational counterpart. -/
structure Env where
  sin : ℚ → ℚ
  sqrt : ℚ → ℚ

/-- `generateHeartRate` from `signals.go`: baseline, then `add` if nonzero,
then `multiply` if nonzero, then noise, clamped to [40, 200]. -/
def generateHeartRate (rng : Rng) (config : SignalConfig) (_elapsed : ℚ) :
    SigValue × Rng :=
  let baseline := getFloat config.baseline 72
  let noise := getFloat config.noise 3
  let value := baseline
  let value := if config.add ≠ 0 then value + config.add else value
  let value := if config.multiply ≠ 0 then value * config.multiply else value
  let d := nextF rng
  (SigValue.num (clamp (value + d.1 * noise) 40 200), d.2)

/-- `generateHRV` from `signals.go`. -/
def generateHRV (rng : Rng) (config : SignalConfig) (_elapsed : ℚ) :
    SigValue × Rng :=
  let baseline := getFloat config.baseline 50
  let noise := getFloat config.noise 8
  let value := baseline
  let value := if config.multiply ≠ 0 then value * config.multiply else value
  let d := nextF rng
  (SigValue.num (clamp (value + d.1 * noise) 10 150), d.2)

/-- `generateAccel` from `signals.go`: per-axis baseline plus noise, default
baseline (0, 0, 9.81); not clamped. -/
def generateAccel (rng : Rng) (config : SignalConfig) (_elapsed : ℚ) :
    SigValue × Rng :=
  let b := getVector3 config.baseline (0, 0, 981 / 100)
  let noise := getFloat config.noise (5 / 100)
  let d1 := nextF rng
  let d2 := nextF d1.2
  let d3 := nextF d2.2
  (SigValue.vec (b.1 + d1.1 * noise) (b.2.1 + d2.1 * noise) (b.2.2 + d3.1 * noise), d3.2)

/-- `generateGyro` from `signals.go`: per-axis baseline plus noise, default
baseline (0, 0, 0). -/
def generateGyro (rng : Rng) (config : SignalConfig) (_elapsed : ℚ) :
    SigValue × Rng :=
  let b := getVector3 config.baseline (0, 0, 0)
  let noise := getFloat config.noise (2 / 100)
  let d1 := nextF rng
  let d2 := nextF d1.2
  let d3 := nextF d2.2
  (SigValue.vec (b.1 + d1.1 * noise) (b.2.1 + d2.1 * noise) (b.2.2 + d3.1 * noise), d3.2)

/-- `generateSkinTemp` from `signals.go`: baseline plus a slow sinusoidal
drift `sin(elapsed/600) * 0.3` plus noise, clamped to [30, 37]. -/
def generateSkinTemp (env : Env) (rng : Rng) (config : SignalConfig)
    (elapsed : ℚ) : SigValue × Rng :=
  let baseline := getFloat config.baseline 33
  let noise := getFloat config.noise (1 / 10)
  let drift := env.sin (elapsed / 600) * (3 / 10)
  let d := nextF rng
  (SigValue.num (clamp (baseline + drift + d.1 * noise) 30 37), d.2)

/-- `generateEDA` from `signals.go`: baseline, `add` if nonzero, noise,
clamped to [0.1, 20]. -/
def generateEDA (rng : Rng) (config : SignalConfig) (_elapsed : ℚ) :
    SigValue × Rng :=
  let baseline := getFloat config.baseline 2
  let noise := getFloat config.noise (2 / 10)
  let value := baseline
  let value := if config.add ≠ 0 then value + config.add else value
  let d := nextF rng
  (SigValue.num (clamp (value + d.1 * noise) (1 / 10) 20), d.2)

/-- `generateScreenState` from `signals.go`: an explicit `value` short-cuts
before any sampling; otherwise one `Float64` draw, above 0.95 means off. -/
def generateScreenState (rng : Rng) (config : SignalConfig) (_elapsed : ℚ) :
    SigValue × Rng :=
  if config.value ≠ "" then (SigValue.label config.value, rng)
  else
    let d := nextF rng
    (SigValue.label (if d.1 > 95 / 100 then "off" else "on"), d.2)

/-- `generateAppActivity` from `signals.go`: explicit `value` short-cuts,
else `Intn 4` picks among foreground/background/typing/scrolling (`Intn`'s
result is reduced mod 4 for totality; Go guarantees it is already in range). -/
def generateAppActivity (rng : Rng) (config : SignalConfig) (_elapsed : ℚ) :
    SigValue × Rng :=
  if config.value ≠ "" then (SigValue.label config.value, rng)
  else
    let d := nextI rng
    let activities := ["foreground", "background", "typing", "scrolling"]
    (SigValue.label (activities.getD (d.1.toNat % 4) "foreground"), d.2)

/-- `generateMotionActivity` from `signals.go`: explicit `value` short-cuts,
else one `Float64` draw against cumulative weights 0.7 / 0.95 / 1.0, with
`still` as the fallthrough result. -/
def generateMotionActivity (rng : Rng) (config : SignalConfig) (_elapsed : ℚ) :
    SigValue × Rng :=
  if config.value ≠ "" then (SigValue.label config.value, rng)
  else
    let d := nextF rng
    let r := d.1
    let v :=
      if r < 7 / 10 then "still"
      else if r < 95 / 100 then "walk"
      else if r < 1 then "run"
      else "still"
    (SigValue.label v, d.2)

/-- Common shape of the generator functions registered by `GetAllSignals`. -/
abbrev GenFn := Env → Rng → SignalConfig → ℚ → SigValue × Rng

/-- `GetAllSignals` from `signals.go`: the signal-name-to-generator map.
The association list records the map entries; Go map iteration order over
these keys is NOT fixed and is passed separately where it matters. -/
def GetAllSignals : List (String × GenFn) :=
  [("ppg.hr_bpm", fun _ => generateHeartRate),
   ("ppg.hrv_rmssd_ms", fun _ => generateHRV),
   ("accel.xyz_mps2", fun _ => generateAccel),
   ("gyro.xyz_rps", fun _ => generateGyro),
   ("temp.skin_c", fun env => generateSkinTemp env),
   ("eda.us", fun _ => generateEDA),
   ("screen.state", fun _ => generateScreenState),
   ("app.activity", fun _ => generateAppActivity),
   ("motion.activity", fun _ => generateMotionActivity)]

/-- The `CorrelationContext.values` map: signal name to generated value. -/
abbrev Ctx := List (String × SigValue)

/-- `CorrelationContext.Set`: replace the entry when present, else add it. -/
def ctxSet (ctx : Ctx) (name : String) (v : SigValue) : Ctx :=
  if (ctx.lookup name).isSome then
    ctx.map (fun p => if p.1 = name then (name, v) else p)
  else ctx ++ [(name, v)]

/-- `ApplyCorrelations` from `correlations.go`: the three rules in order,
each reading the context left by the previous one.  Type assertions that
would panic in Go (a scalar where a vector is stored) leave the context
unchanged; the generators never produce such shapes. -/
def applyCorrelations (env : Env) (ctx0 : Ctx) : Ctx :=
  let ctx1 :=
    match ctx0.lookup "accel.xyz_mps2", ctx0.lookup "ppg.hr_bpm" with
    | some (SigValue.vec ax ay az), some (SigValue.num hr) =>
      let magnitude := env.sqrt (ax * ax + ay * ay + az * az)
      if magnitude > 11 then
        ctxSet ctx0 "ppg.hr_bpm" (SigValue.num (clamp (hr + (magnitude - 11) * 2) 40 200))
      else ctx0
    | _, _ => ctx0
  let ctx2 :=
    match ctx1.lookup "eda.us", ctx1.lookup "ppg.hrv_rmssd_ms" with
    | some (SigValue.num eda), some (SigValue.num hrv) =>
      if eda > 4 then
        let factor := 1 - (eda - 4) * (5 / 100)
        let factor := if factor < 6 / 10 then 6 / 10 else factor
        ctxSet ctx1 "ppg.hrv_rmssd_ms" (SigValue.num (clamp (hrv * factor) 10 150))
      else ctx1
    | _, _ => ctx1
  match ctx2.lookup "motion.activity", ctx2.lookup "accel.xyz_mps2" with
  | some (SigValue.label motion), some (SigValue.vec ax ay az) =>
    let magnitude := env.sqrt (ax * ax + ay * ay + az * az)
    if motion = "still" then
      if magnitude > 21 / 2 then
        let factor := (985 / 100) / magnitude
        ctxSet ctx2 "accel.xyz_mps2" (SigValue.vec (ax * factor) (ay * factor) (az * factor))
      else ctx2
    else if motion = "walk" then
      if magnitude < 10 ∨ magnitude > 15 then
        let target := 11 + |ax| * (5 / 10)
        let factor := target / magnitude
        ctxSet ctx2 "accel.xyz_mps2" (SigValue.vec (ax * factor) (ay * factor) (az * factor))
      else ctx2
    else if motion = "run" then
      if magnitude < 12 then
        let factor := 13 / magnitude
        ctxSet ctx2 "accel.xyz_mps2" (SigValue.vec (ax * factor) (ay * factor) (az * factor))
      else ctx2
    else ctx2
  | _, _ => ctx2

/-- `Source` from `internal/models/event.go`. -/
structure Source where
  type : String
  id : String
  side : Option String
  deriving DecidableEq, Repr

/-- `Session` from `internal/models/event.go`. -/
structure Session where
  runID : String
  scenario : String
  seed : ℤ
  deriving DecidableEq, Repr

/-- `Signal` from `internal/models/event.go`. -/
structure Signal where
  name : String
  unit : String
  value : SigValue
  quality : ℚ
  deriving DecidableEq, Repr

/-- `Meta` from `internal/models/event.go`. -/
structure Meta where
  sequence : ℤ
  deriving DecidableEq, Repr

/-- `Event` from `internal/models/event.go`. -/
structure Event where
  schemaVersion : String
  eventID : String
  ts : String
  source : Source
  session : Session
  signal : Signal
  meta : Meta
  deriving DecidableEq, Repr

/-- `NewEvent` from `internal/models/event.go`; the RFC-3339 wall-clock
timestamp string is passed in (it is read from the ambient clock in Go). -/
def NewEvent (eventID tsStr : String) (source : Source) (session : Session)
    (signal : Signal) (sequence : ℤ) : Event :=
  { schemaVersion := "hsi.input.v1"
    eventID := eventID
    ts := tsStr
    source := source
    session := session
    signal := signal
    meta := { sequence := sequence } }

/-- `parseRate` from `signals.go`: `Sscanf(rate, "%fhz")`, then
`float64(time.Second)/hz` nanoseconds.  Decimal floats only (scenario files
use forms like `50hz`); non-positive rates are errors. -/
def parseRate (rate : String) : Option ℤ :=
  let cs := rate.toList
  let signed : Bool × List Char :=
    match cs with
    | '-' :: t => (true, t)
    | '+' :: t => (false, t)
    | _ => (false, cs)
  let (ds, r1) := signed.2.span Char.isDigit
  let (fds, r2) :=
    match r1 with
    | '.' :: t => t.span Char.isDigit
    | _ => ([], r1)
  if ds.isEmpty && fds.isEmpty then none
  else if r2 ≠ ['h', 'z'] then none
  else
    let mag : ℚ := (GoDuration.digitsVal ds : ℚ) +
      (GoDuration.digitsVal fds : ℚ) / (10 ^ fds.length : ℚ)
    let hz : ℚ := if signed.1 then -mag else mag
    if hz ≤ 0 then none
    else some (((1000000000 : ℚ) / hz).floor)

/-- `Generator.getSignalRate`: the parsed `rate` field when present and
valid, else the 1 Hz default (`time.Second`). -/
def getSignalRate (config : SignalConfig) : ℤ :=
  if config.rate ≠ "" then
    match parseRate config.rate with
    | some duration => duration
    | none => 1000000000
  else 1000000000

/-- `getDefaultUnit` from `signals.go` (Go map indexing yields the empty
string for names outside the table). -/
def getDefaultUnit (signalName : String) : String :=
  (([("ppg.hr_bpm", "bpm"), ("ppg.hrv_rmssd_ms", "ms"),
     ("accel.xyz_mps2", "m/s²"), ("gyro.xyz_rps", "rad/s"),
     ("temp.skin_c", "°C"), ("eda.us", "μS"), ("screen.state", ""),
     ("app.activity", ""), ("motion.activity", "")] :
      List (String × String)).lookup signalName).getD ""

/-- Mutable state of a `Generator` (from `signals.go`): note that
`NewGenerator` seeds the RNG from `Config.Seed` and then DROPS the seed —
no field of the generator retains it. -/
structure GenState where
  runID : String
  scenarioName : String
  source : Source
  sequence : ℤ
  lastEmit : List (String × ℤ)
  rng : Rng
  deriving DecidableEq, Repr

/-- `Generator.createEvent`: bump the sequence, sample quality
(`0.9 + Float64()*0.1`), pick the unit, and build the session with
`Seed: g.rng.Int63()` — a fresh draw, not the configured seed.  The fresh
`uuid.New()` and the wall-clock timestamp are passed in. -/
def createEvent (g : GenState) (signalName : String) (value : SigValue)
    (config : SignalConfig) (eventID tsStr : String) : Event × GenState :=
  let sequence := g.sequence + 1
  let dq := nextF g.rng
  let quality := 9 / 10 + dq.1 * (1 / 10)
  let unit := if config.unit ≠ "" then config.unit else getDefaultUnit signalName
  let ds := nextI dq.2
  let session : Session := { runID := g.runID, scenario := g.scenarioName, seed := ds.1 }
  (NewEvent eventID tsStr g.source session
    { name := signalName, unit := unit, value := value, quality := quality } sequence,
   { g with sequence := sequence, rng := ds.2 })

/-- Replace-or-add on an association list (assignment to a Go map key). -/
def setAssoc (m : List (String × ℤ)) (k : String) (v : ℤ) : List (String × ℤ) :=
  if (m.lookup k).isSome then m.map (fun p => if p.1 = k then (k, v) else p)
  else m ++ [(k, v)]

/-- First loop of `Generator.generateTick`: iterate the `g.signals` map in
the order `order` (Go map iteration order is not specified and varies
between runs — it is an explicit parameter here).  For each due signal run
its generator against the shared RNG, record the value in the correlation
context, and stamp `lastEmit`.  `getCfg` is `engine.GetSignalConfig` at
this instant. -/
def tickGenerate (env : Env) (getCfg : String → Option SignalConfig)
    (elapsed : ℚ) (now : ℤ) :
    List String → GenState → Ctx → Ctx × GenState
  | [], g, ctx => (ctx, g)
  | signalName :: rest, g, ctx =>
    match GetAllSignals.lookup signalName with
    | none => tickGenerate env getCfg elapsed now rest g ctx
    | some gen =>
      match getCfg signalName with
      | none => tickGenerate env getCfg elapsed now rest g ctx
      | some config =>
        let signalRate := getSignalRate config
        let last := (g.lastEmit.lookup signalName).getD 0
        if now - last < signalRate then
          tickGenerate env getCfg elapsed now rest g ctx
        else
          let res := gen env g.rng config elapsed
          tickGenerate env getCfg elapsed now rest
            { g with rng := res.2, lastEmit := setAssoc g.lastEmit signalName now }
            (ctxSet ctx signalName res.1)

/-- Second loop of `generateTick`: iterate the map again (again in an
unspecified order `order`), building an event for every signal present in
the correlated context.  `freshID` models `uuid.New()` per sequence number. -/
def tickEmit (getCfg : String → Option SignalConfig) (freshID : ℤ → String)
    (tsStr : String) :
    List String → Ctx → GenState → List Event × GenState
  | [], _, g => ([], g)
  | signalName :: rest, ctx, g =>
    match ctx.lookup signalName with
    | none => tickEmit getCfg freshID tsStr rest ctx g
    | some value =>
      match getCfg signalName with
      | none => tickEmit getCfg freshID tsStr rest ctx g
      | some config =>
        let res := createEvent g signalName value config (freshID (g.sequence + 1)) tsStr
        let tail := tickEmit getCfg freshID tsStr rest ctx res.2
        (res.1 :: tail.1, tail.2)

/-- `Generator.generateTick`: generate due signals (first map iteration,
order `order1`), apply the correlation pass, then emit events (second map
iteration, order `order2`). -/
def generateTick (env : Env) (getCfg : String → Option SignalConfig)
    (freshID : ℤ → String) (tsStr : String) (order1 order2 : List String)
    (elapsed : ℚ) (now : ℤ) (g : GenState) : List Event × GenState :=
  let gen := tickGenerate env getCfg elapsed now order1 g []
  let ctx := applyCorrelations env gen.1
  tickEmit getCfg freshID tsStr order2 ctx gen.2

/-- The per-tick signal values alone (the correlated context): this is what
determines every emitted `signal.value` of the tick. -/
def tickValues (env : Env) (getCfg : String → Option SignalConfig)
    (order1 : List String) (elapsed : ℚ) (now : ℤ) (g : GenState) : Ctx :=
  applyCorrelations env (tickGenerate env getCfg elapsed now order1 g []).1

/-- A dispatcher subscriber: its buffered channel (capacity `cap`, queued
events `buf`), the events it has already received from the channel in
order (`delivered`), and whether `closeSubscribers` has closed it. -/
structure Sub where
  cap : ℕ
  buf : List Event := []
  delivered : List Event := []
  chClosed : Bool := false
  deriving DecidableEq, Repr

/-- `Dispatcher` state (first variant in the transport sources, the one
with the dropped counter): subscriber list, the configured per-subscriber
buffer size, and the process-wide atomic dropped counter. -/
structure DState where
  bufferSize : ℕ
  subs : List Sub := []
  droppedTotal : ℕ := 0
  deriving DecidableEq, Repr

/-- `NewDispatcher`: empty subscriber list, zero dropped counter. -/
def NewDispatcher (bufferSize : ℕ) : DState :=
  { bufferSize := bufferSize }

/-- `Dispatcher.Subscribe`: append a fresh channel of capacity
`bufferSize`. -/
def Subscribe (d : DState) : DState :=
  { d with subs := d.subs ++ [{ cap := d.bufferSize }] }

/-- `Dispatcher.GetSubscriberCount`: the length of the subscriber list. -/
def GetSubscriberCount (d : DState) : ℕ :=
  d.subs.length

/-- `Dispatcher.GetDroppedCount`. -/
def GetDroppedCount (d : DState) : ℕ :=
  d.droppedTotal

/-- The per-subscriber arm of `Dispatcher.dispatch`: non-blocking send.
Room in the buffer means the event is enqueued; a full buffer means the
event is dropped for this subscriber (`true` in the second component). -/
def dispatchSub (s : Sub) (event : Event) : Sub × Bool :=
  if s.buf.length < s.cap then ({ s with buf := s.buf ++ [event] }, false)
  else (s, true)

/-- `Dispatcher.dispatch`: try every subscriber without blocking and add
the number of full buffers to the dropped total.  The `ctx.Done` escape
hatch (taken only while the process is shutting down) is not modelled. -/
def dispatch (d : DState) (event : Event) : DState :=
  { d with
    subs := d.subs.map (fun s => (dispatchSub s event).1)
    droppedTotal := d.droppedTotal + d.subs.countP (fun s => (dispatchSub s event).2) }

/-- A subscriber receiving from its channel: pop the front of buffer `i`. -/
def consume (d : DState) (i : ℕ) : DState :=
  match d.subs[i]? with
  | none => d
  | some s =>
    match s.buf with
    | [] => d
    | e :: t =>
      { d with subs := d.subs.set i { s with buf := t, delivered := s.delivered ++ [e] } }

/-- `Dispatcher.closeSubscribers`: close every subscriber channel.  The
`d.subscribers` slice itself is left untouched. -/
def closeSubscribers (d : DState) : DState :=
  { d with subs := d.subs.map (fun s => { s with chClosed := true }) }

/-- One observable step of a dispatcher run: the dispatcher forwarding one
source event, or some subscriber receiving from its channel. -/
inductive RunStep where
  | deliver (event : Event)
  | recv (i : ℕ)
  deriving DecidableEq, Repr

/-- Apply one run step. -/
def applyStep (d : DState) : RunStep → DState
  | RunStep.deliver event => dispatch d event
  | RunStep.recv i => consume d i

/-- Fold a list of run steps over the dispatcher state. -/
def runSteps (d : DState) : List RunStep → DState
  | [] => d
  | s :: rest => runSteps (applyStep d s) rest

/-- `Dispatcher.Run`: process the interleaving of source events and
subscriber receives until the source closes or cancellation fires, then
close all subscriber channels (`defer d.closeSubscribers()`). -/
def Run (d : DState) (steps : List RunStep) : DState :=
  closeSubscribers (runSteps d steps)

/-- The sequence of events the dispatcher observed on its source, in
order, during a list of run steps. -/
def observed (steps : List RunStep) : List Event :=
  steps.filterMap (fun s =>
    match s with
    | RunStep.deliver event => some event
    | RunStep.recv _ => none)

/-- Raw message bytes as handed to a transport client. -/
abbrev Bytes := List ℕ

/-- The side effects of one transport `Broadcast` call: the new server
state, how many times the envelope was serialized (`encoder.Encode` /
`json.Marshal` calls), how many client writes or enqueues happened, and
the returned error. -/
structure BroadcastEffect (σ : Type) where
  state : σ
  encodeCalls : ℕ
  writes : ℕ
  err : Option String
  deriving Repr

/-- A WebSocket client of `internal/transport/websocket.go`: its bounded
send queue (capacity 256 in Go). -/
structure WsClient where
  cap : ℕ
  send : List Bytes := []
  deriving DecidableEq, Repr

/-- `WebSocketServer` client registry (`internal/transport/websocket.go`). -/
structure WsState where
  clients : List WsClient := []
  deriving DecidableEq, Repr

/-- `WebSocketServer.Broadcast` from `internal/transport/websocket.go`:
an empty registry returns nil BEFORE encoding; otherwise encode once and
enqueue non-blockingly on every client, dropping on full buffers. -/
def wsBroadcast (encode : Event → Bytes) (s : WsState) (event : Event) :
    BroadcastEffect WsState :=
  if s.clients.length = 0 then { state := s, encodeCalls := 0, writes := 0, err := none }
  else
    let data := encode event
    { state := { clients := s.clients.map (fun c =>
        if c.send.length < c.cap then { c with send := c.send ++ [data] } else c) }
      encodeCalls := 1
      writes := s.clients.countP (fun c => c.send.length < c.cap)
      err := none }

/-- Legacy `WebSocketServer` registry (the variant bundled after
`internal/models/event.go`): bare connections without send queues. -/
structure LegacyWsState where
  clients : List ℕ := []
  deriving DecidableEq, Repr

/-- The legacy `WebSocketServer.Broadcast` variant: it marshals the event
FIRST, unconditionally, and only then walks the (possibly empty) client
set writing the message to each connection. -/
def legacyWsBroadcast (encode : Event → Bytes) (s : LegacyWsState) (event : Event) :
    BroadcastEffect LegacyWsState :=
  let _data := encode event
  { state := s, encodeCalls := 1, writes := s.clients.length, err := none }

/-- An SSE client of `internal/transport/sse.go`: its buffered channel
(capacity 100 in Go). -/
structure SseClient where
  cap : ℕ
  buf : List Bytes := []
  deriving DecidableEq, Repr

/-- `SSEServer` client registry. -/
structure SseState where
  clients : List SseClient := []
  deriving DecidableEq, Repr

/-- `SSEServer.Broadcast` from `internal/transport/sse.go`: takes already
serialized bytes (so it never serializes an envelope itself); an empty
registry returns nil immediately; otherwise a non-blocking enqueue per
client, dropping silently on full buffers. -/
def sseBroadcast (s : SseState) (data : Bytes) : BroadcastEffect SseState :=
  if s.clients.length = 0 then { state := s, encodeCalls := 0, writes := 0, err := none }
  else
    { state := { clients := s.clients.map (fun c =>
        if c.buf.length < c.cap then { c with buf := c.buf ++ [data] } else c) }
      encodeCalls := 0
      writes := s.clients.countP (fun c => c.buf.length < c.cap)
      err := none }

/-- `UDPServer` registry: registered client addresses (map key is the
address string). -/
structure UdpState where
  clients : List String := []
  deriving DecidableEq, Repr

/-- `UDPServer.Broadcast` (the encoder variant of `transport/udp.go`): an
empty registry returns nil before encoding; otherwise encode once and send
one datagram per registered client. -/
def udpBroadcast (encode : Event → Bytes) (s : UdpState) (event : Event) :
    BroadcastEffect UdpState :=
  if s.clients.length = 0 then { state := s, encodeCalls := 0, writes := 0, err := none }
  else
    let _data := encode event
    { state := s, encodeCalls := 1, writes := s.clients.length, err := none }

/-- One line of a recording file as the raw replayer sees it: `ts` is the
result of `Replayer.extractTimestamp` on the line (nanoseconds since epoch;
`none` when neither the `ts` field nor `provenance.observed_at_utc` parses),
`payload` identifies the raw bytes of the line. -/
structure Record where
  ts : Option ℚ
  payload : ℕ
  deriving DecidableEq, Repr

/-- The fixed 100 ms fallback wait of `replayOnce`, in nanoseconds. -/
def waitNoTs : ℚ := 100000000

/-- Loop body of the raw `Replayer.replayOnce` (the NDJSON bytes variant):
walk the records keeping `lastTimestamp` (the timestamp of the most recent
record that had one) and the 1-based line number, emitting for each record
the wait performed before sending it together with the record.  A record
without a timestamp waits the fixed 100 ms (except on line 1); a record
with one waits `(ts - lastTimestamp) / speed` when positive (the division
is skipped in Go when `speed == 1.0`, which is the same value). -/
def replayGo (speed : ℚ) : Option ℚ → ℕ → List Record → List (ℚ × Record)
  | _, _, [] => []
  | lastTimestamp, lineNum, r :: rest =>
    match r.ts with
    | none =>
      let w : ℚ := if 1 < lineNum then waitNoTs else 0
      (w, r) :: replayGo speed lastTimestamp (lineNum + 1) rest
    | some t =>
      let w : ℚ :=
        match lastTimestamp with
        | none => 0
        | some lt =>
          let delay := t - lt
          let delay := if speed ≠ 1 then delay / speed else delay
          if delay > 0 then delay else 0
      (w, r) :: replayGo speed (some t) (lineNum + 1) rest

/-- `Replayer.replayOnce`: one pass over the file, starting with a zero
`lastTimestamp` and line number 1. -/
def replayOnce (speed : ℚ) (records : List Record) : List (ℚ × Record) :=
  replayGo speed none 1 records

/-- `Replayer.Replay` against a cancellation schedule: one pass, then while
`loop` is set, re-run until the post-pass cancellation check observes the
cancelled context.  `checksLeft` is the number of post-pass checks that
still report "not cancelled" (the context cancels after that many), so the
function is the full trace of waits and sends of the run; its totality is
the clean exit on cancellation. -/
def Replay (speed : ℚ) (records : List Record) (loopFlag : Bool) :
    ℕ → List (ℚ × Record)
  | 0 => replayOnce speed records
  | checksLeft + 1 =>
    if loopFlag then
      replayOnce speed records ++ Replay speed records loopFlag checksLeft
    else replayOnce speed records

/-- A summary entry of the HSI export payload; its `Data map[string]any`
field is opaque to validation and receipts and is not modelled. -/
structure Summary where
  id : String
  type : String
  timestamp : String
  deriving DecidableEq, Repr

/-- An insight entry of the HSI export payload. -/
structure Insight where
  id : String
  type : String
  timestamp : String
  deriving DecidableEq, Repr

/-- `ExportRange` from the receiver models. -/
structure ExportRange where
  fromUTC : String
  toUTC : String
  deriving DecidableEq, Repr

/-- `ExportDevice` from the receiver models. -/
structure ExportDevice where
  platform : String
  appVersion : String
  deriving DecidableEq, Repr

/-- `HSIExport` from the receiver models. -/
structure HSIExport where
  schema : String
  exportID : String
  createdAtUTC : String
  range : ExportRange
  device : ExportDevice
  summaries : List Summary
  insights : List Insight
  deriving DecidableEq, Repr

/-- `ValidationError` from the receiver models. -/
structure ValidationError where
  field : String
  message : String
  deriving DecidableEq, Repr

/-- Zone suffix of an RFC-3339 timestamp: `Z` or `±HH:MM` with valid
ranges. -/
def zoneOk : List Char → Bool
  | ['Z'] => true
  | [sign, h1, h2, ':', m1, m2] =>
    (sign = '+' ∨ sign = '-') && h1.isDigit && h2.isDigit && m1.isDigit && m2.isDigit &&
    GoDuration.digitsVal [h1, h2] ≤ 23 && GoDuration.digitsVal [m1, m2] ≤ 59
  | _ => false

/-- Optional fractional seconds then the zone suffix. -/
def fracZoneOk (cs : List Char) : Bool :=
  match cs with
  | '.' :: t =>
    let p := t.span Char.isDigit
    !p.1.isEmpty && zoneOk p.2
  | _ => zoneOk cs

/-- Day count of a month in the proleptic Gregorian calendar. -/
def daysIn (year month : ℕ) : ℕ :=
  if month = 2 then
    if year % 4 = 0 ∧ (year % 100 ≠ 0 ∨ year % 400 = 0) then 29 else 28
  else if month = 4 ∨ month = 6 ∨ month = 9 ∨ month = 11 then 30
  else 31

/-- Acceptance of Go `time.Parse(time.RFC3339, s)`:
`YYYY-MM-DDTHH:MM:SS[.frac](Z|±HH:MM)` with calendar-valid fields. -/
def rfc3339Valid (s : String) : Bool :=
  match s.toList with
  | y1 :: y2 :: y3 :: y4 :: '-' :: m1 :: m2 :: '-' :: d1 :: d2 :: 'T' ::
      h1 :: h2 :: ':' :: n1 :: n2 :: ':' :: s1 :: s2 :: rest =>
    ([y1, y2, y3, y4, m1, m2, d1, d2, h1, h2, n1, n2, s1, s2].all Char.isDigit) &&
    (let year := GoDuration.digitsVal [y1, y2, y3, y4]
     let month := GoDuration.digitsVal [m1, m2]
     let day := GoDuration.digitsVal [d1, d2]
     1 ≤ month && month ≤ 12 && 1 ≤ day && day ≤ daysIn year month &&
     GoDuration.digitsVal [h1, h2] ≤ 23 && GoDuration.digitsVal [n1, n2] ≤ 59 &&
     GoDuration.digitsVal [s1, s2] ≤ 59) &&
    fracZoneOk rest
  | _ => false

/-- `HSIExport.Validate`: the sequential schema checks of the receiver
models, first failure wins. -/
def Validate (e : HSIExport) : Option ValidationError :=
  if e.schema ≠ "synheart.hsi.export.v1" then
    some { field := "schema", message := "must be 'synheart.hsi.export.v1'" }
  else if e.exportID = "" then
    some { field := "export_id", message := "is required" }
  else if e.createdAtUTC = "" then
    some { field := "created_at_utc", message := "is required" }
  else if ¬ rfc3339Valid e.createdAtUTC then
    some { field := "created_at_utc", message := "must be valid RFC3339 timestamp" }
  else if e.range.fromUTC = "" ∨ e.range.toUTC = "" then
    some { field := "range", message := "from_utc and to_utc are required" }
  else if e.device.platform = "" then
    some { field := "device.platform", message := "is required" }
  else if e.device.appVersion = "" then
    some { field := "device.app_version", message := "is required" }
  else none

/-- `ExportReceipt` from the receiver models. -/
structure ExportReceipt where
  exportID : String
  receivedAt : String
  range : String
  summaryCount : ℕ
  insightCount : ℕ
  platform : String
  duplicate : Bool
  deriving DecidableEq, Repr

/-- `NewExportReceipt`: counts are the lengths of the payload arrays; the
`received_at` wall-clock string is passed in. -/
def NewExportReceipt (e : HSIExport) (duplicate : Bool)
    (receivedAt : String) : ExportReceipt :=
  { exportID := e.exportID
    receivedAt := receivedAt
    range := e.range.fromUTC ++ " to " ++ e.range.toUTC
    summaryCount := e.summaries.length
    insightCount := e.insights.length
    platform := e.device.platform
    duplicate := duplicate }

/-- Receiver `Config`. -/
structure RConfig where
  host : String := ""
  port : ℕ := 0
  token : String := ""
  outDir : String := ""
  format : String := ""
  acceptGzip : Bool := false
  deriving DecidableEq, Repr

/-- Receiver `Stats`. -/
structure Stats where
  totalReceived : ℕ := 0
  totalDuplicates : ℕ := 0
  totalErrors : ℕ := 0
  deriving DecidableEq, Repr

/-- Mutable receiver server state: the idempotency store's seen keys, the
statistics, and the exports passed to the configured output writer, in
order (the writers append one serialized export per call). -/
structure ServerState where
  seen : List String := []
  stats : Stats := {}
  written : List HSIExport := []
  deriving DecidableEq, Repr

/-- One HTTP request to `/v1/hsi/import` as `handleImport` observes it.
`bodyReadOk` models `readBody` (gzip decompression and the 10 MiB-limited
read) succeeding; `body` models `json.Unmarshal` of the resulting bytes
(`none` = parse failure).  JSON and gzip byte-level details stay opaque. -/
structure Request where
  method : String
  authorization : String := ""
  contentType : String := ""
  schemaHeader : String := ""
  exportIdHeader : String := ""
  idemKeyHeader : String := ""
  bodyReadOk : Bool := true
  body : Option HSIExport := none

/-- The receiver's response to one import request. -/
structure Response where
  status : ℕ
  receipt : Option ExportReceipt := none
  errMsg : Option String := none
  deriving DecidableEq, Repr

/-- ASCII lower-casing of one character (the effect of `strings.ToLower`
on the `Bearer` scheme token). -/
def asciiLower (c : Char) : Char :=
  if 65 ≤ c.toNat ∧ c.toNat ≤ 90 then Char.ofNat (c.toNat + 32) else c

/-- `Server.validateAuth`: require `Bearer <token>` (case-insensitive
scheme, `strings.SplitN(auth, " ", 2)`). -/
def validateAuth (token auth : String) : Bool :=
  if auth = "" then false
  else
    match auth.toList.span (fun c => c != ' ') with
    | (p1, ' ' :: restChars) =>
      String.mk (p1.map asciiLower) = "bearer" && String.mk restChars = token
    | _ => false

/-- `Server.validateHeaders`: JSON content type, optional schema header
must match v1, export-id header required. -/
def validateHeaders (r : Request) : Option String :=
  if ¬ ("application/json".toList.isPrefixOf r.contentType.toList) then
    some "Content-Type must be application/json"
  else if r.schemaHeader ≠ "" ∧ r.schemaHeader ≠ "synheart.hsi.export.v1" then
    some ("unsupported schema version: " ++ r.schemaHeader)
  else if r.exportIdHeader = "" then
    some "X-Synheart-Export-Id header is required"
  else none

/-- Bump the error counter (the `s.stats.TotalErrors++` blocks). -/
def bumpErrors (st : ServerState) : ServerState :=
  { st with stats := { st.stats with totalErrors := st.stats.totalErrors + 1 } }

/-- `Server.handleImport`: the full handler in source order — method,
auth, headers, idempotency-key selection, duplicate probe, body read,
JSON parse, schema validation, mark-seen, write-through, statistics,
receipt.  The output writer is modelled as always succeeding (its failure
path only reports 500 and touches no other state); `receivedAt` is the
wall-clock string stamped into the receipt. -/
def handleImport (cfg : RConfig) (st : ServerState) (r : Request)
    (receivedAt : String) : Response × ServerState :=
  if r.method ≠ "POST" then
    ({ status := 405, errMsg := some "method not allowed" }, st)
  else if ¬ validateAuth cfg.token r.authorization then
    ({ status := 401, errMsg := some "invalid or missing authorization token" }, bumpErrors st)
  else
    match validateHeaders r with
    | some msg => ({ status := 400, errMsg := some msg }, bumpErrors st)
    | none =>
      let idempotencyKey :=
        if r.idemKeyHeader ≠ "" then r.idemKeyHeader else r.exportIdHeader
      let isDuplicate := st.seen.contains idempotencyKey
      if ¬ r.bodyReadOk then
        ({ status := 400, errMsg := some "failed to read request body" }, bumpErrors st)
      else
        match r.body with
        | none => ({ status := 400, errMsg := some "invalid JSON" }, bumpErrors st)
        | some e =>
          match Validate e with
          | some verr =>
            ({ status := 400,
               errMsg := some ("schema validation failed: " ++ verr.field ++ ": " ++ verr.message) },
             bumpErrors st)
          | none =>
            let st1 := { st with seen := st.seen ++ [idempotencyKey] }
            let st2 := { st1 with written := st1.written ++ [e] }
            let st3 := { st2 with stats :=
              { st2.stats with
                totalReceived := st2.stats.totalReceived + 1
                totalDuplicates :=
                  if isDuplicate then st2.stats.totalDuplicates + 1
                  else st2.stats.totalDuplicates } }
            ({ status := 200, receipt := some (NewExportReceipt e isDuplicate receivedAt) }, st3)

/-- Heart-rate formula as the specification words it (C3): baseline + noise
+ add as one sum, the WHOLE multiplied by `multiply` when set, clamped.
This definition follows the spec sentence, not the Go code, and exists only
to be compared against `generateHeartRate`. -/
def heartRateClaimFormula (config : SignalConfig) (n : ℚ) : ℚ :=
  let baseline := getFloat config.baseline 72
  let noise := getFloat config.noise 3
  let core := baseline + n * noise + (if config.add = 0 then 0 else config.add)
  let core := if config.multiply = 0 then core else core * config.multiply
  clamp core 40 200

/-- Concrete heart-rate config exercising `add` and `multiply` together
with nonzero noise. -/
def c3Cfg : SignalConfig :=
  { baseline := some (ConfigVal.scalar 50)
    noise := some (ConfigVal.scalar 10)
    add := 5
    multiply := 2 }

/-- Base config of the C4 example: explicit rate, unit and baseline. -/
def c4Base : SignalConfig :=
  { rate := "1hz", unit := "bpm", baseline := some (ConfigVal.scalar 72) }

/-- Phase override of the C4 example: sets `rate` (to `"50hz"`) and `add`. -/
def c4Ov : SignalConfig :=
  { rate := "50hz", add := 35 }

/-- Store holding the base config (cell 0) and the override (cell 1). -/
def c4Store : Store := [c4Base, c4Ov]

/-- Scenario with one signal and one unlimited phase overriding it. -/
def c4Scenario : Scenario :=
  { name := "stress_spike"
    signals := [("ppg.hr_bpm", 0)]
    phases := [{ name := "spike", duration := "", overrides := [("ppg.hr_bpm", 1)] }] }

/-- A fixed sample envelope used by concrete dispatcher and transport
instances. -/
def sampleEvent : Event :=
  { schemaVersion := "hsi.input.v1"
    eventID := "e1"
    ts := "2026-01-16T12:00:00Z"
    source := { type := "wearable", id := "w-1", side := some "left" }
    session := { runID := "r", scenario := "baseline", seed := 42 }
    signal := { name := "ppg.hr_bpm", unit := "bpm", value := SigValue.num 72, quality := 1 }
    meta := { sequence := 1 } }

/-- A second sample envelope. -/
def sampleEvent2 : Event :=
  { sampleEvent with eventID := "e2", meta := { sequence := 2 } }

/-- A third sample envelope. -/
def sampleEvent3 : Event :=
  { sampleEvent with eventID := "e3", meta := { sequence := 3 } }

/-- Trivial transcendental environment for concrete runs in which the
`math.Sin` / `math.Sqrt` call sites are unreachable. -/
def zeroEnv : Env := { sin := fun _ => 0, sqrt := fun _ => 0 }

/-- Signal-config lookup of the C1 example: heart rate and HRV enabled with
all defaults, every other signal absent. -/
def c1GetCfg : String → Option SignalConfig := fun signalName =>
  if signalName = "ppg.hr_bpm" ∨ signalName = "ppg.hrv_rmssd_ms" then some {} else none

/-- Generator state of the C1 example: a run 2 s in, both signals due, the
seeded source about to yield the standard-normal draws 0.1 then 0.2. -/
def c1Gen : GenState :=
  { runID := "run-1"
    scenarioName := "baseline"
    source := { type := "wearable", id := "w-1", side := some "left" }
    sequence := 0
    lastEmit := []
    rng := [RVal.f (1 / 10), RVal.f (2 / 10)] }

/-- HSI export payload mirroring the repository's own receiver test
fixture. -/
def c8Export : HSIExport :=
  { schema := "synheart.hsi.export.v1"
    exportID := "test-123"
    createdAtUTC := "2026-01-16T12:00:00Z"
    range := { fromUTC := "2026-01-15T00:00:00Z", toUTC := "2026-01-16T00:00:00Z" }
    device := { platform := "ios", appVersion := "1.0.0" }
    summaries := [{ id := "s1", type := "daily", timestamp := "2026-01-15T12:00:00Z" }]
    insights := [] }

/-- Well-formed import request carrying `c8Export` under idempotency key
`K1`. -/
def c8Request : Request :=
  { method := "POST"
    authorization := "Bearer sh_secrettoken"
    contentType := "application/json"
    schemaHeader := "synheart.hsi.export.v1"
    exportIdHeader := "test-123"
    idemKeyHeader := "K1"
    bodyReadOk := true
    body := some c8Export }

/-- Recording of the C7 example: two timestamped records 2 s apart followed
by one record without an extractable timestamp. -/
def c7Records : List Record :=
  [{ ts := some 0, payload := 1 },
   { ts := some 2000000000, payload := 2 },
   { ts := none, payload := 3 }]

/-- Generator state of the C5 example: a run configured with seed 42
(`NewGenerator` retains no seed field; only the seeded draw stream
remains), RNG about to yield quality/seed draw pairs (0, 7) and (0, 9). -/
def c5Gen : GenState :=
  { runID := "run-42"
    scenarioName := "baseline"
    source := { type := "wearable", id := "w-1", side := some "left" }
    sequence := 0
    lastEmit := []
    rng := [RVal.f 0, RVal.i 7, RVal.f 0, RVal.i 9] }

/-- Dispatcher with two capacity-1 subscribers, the second already full. -/
def c2D : DState :=
  { bufferSize := 1
    subs := [{ cap := 1 }, { cap := 1, buf := [sampleEvent2] }]
    droppedTotal := 0 }

/-- Dispatcher with one empty capacity-2 subscriber, about to run. -/
def c2D0 : DState :=
  { bufferSize := 2, subs := [{ cap := 2 }] }

/-- A run interleaving: dispatch, subscriber receive, dispatch. -/
def c2Steps : List RunStep :=
  [RunStep.deliver sampleEvent, RunStep.recv 0, RunStep.deliver sampleEvent2]

/-- The clamp of a value to a nonempty interval lies in the interval. -/
theorem clamp_bounds (v lo hi : ℚ) (h : lo ≤ hi) :
    lo ≤ clamp v lo hi ∧ clamp v lo hi ≤ hi := by
  unfold clamp
  split
  · exact ⟨le_refl lo, h⟩
  · split
    · exact ⟨h, le_refl hi⟩
    · rename_i h1 h2
      exact ⟨le_of_not_lt h1, le_of_not_lt h2⟩

/-- C3: the code's heart-rate value in closed form.  `multiply` scales the
baseline-plus-add core only; the noise term is added AFTER the
multiplication, and the clamp keeps the result in [40, 200]. -/
theorem c3_heartRate_formula_and_range (config : SignalConfig) (rng : Rng)
    (elapsed : ℚ) :
    (generateHeartRate rng config elapsed).1 =
      SigValue.num (clamp
        ((getFloat config.baseline 72 + (if config.add = 0 then 0 else config.add)) *
          (if config.multiply = 0 then 1 else config.multiply) +
          (nextF rng).1 * getFloat config.noise 3) 40 200) ∧
    40 ≤ clamp
        ((getFloat config.baseline 72 + (if config.add = 0 then 0 else config.add)) *
          (if config.multiply = 0 then 1 else config.multiply) +
          (nextF rng).1 * getFloat config.noise 3) 40 200 ∧
    clamp
        ((getFloat config.baseline 72 + (if config.add = 0 then 0 else config.add)) *
          (if config.multiply = 0 then 1 else config.multiply) +
          (nextF rng).1 * getFloat config.noise 3) 40 200 ≤ 200 := by
  refine ⟨?_, ?_, ?_⟩
  · unfold generateHeartRate
    by_cases h1 : config.add = 0 <;> by_cases h2 : config.multiply = 0 <;>
      simp [h1, h2]
  · exact (clamp_bounds _ 40 200 (by norm_num)).1
  · exact (clamp_bounds _ 40 200 (by norm_num)).2

/-- C3 counterexample: with baseline 50, noise 10, add 5, multiply 2 and a
standard-normal draw of 1, the code yields (50+5)·2 + 1·10 = 120, while the
claim's formula — multiply scaling the noise as well — yields
(50 + 1·10 + 5)·2 = 130. -/
theorem c3_counterexample :
    (generateHeartRate [RVal.f 1] c3Cfg 0).1 = SigValue.num 120 ∧
    heartRateClaimFormula c3Cfg 1 = 130 ∧
    SigValue.num 120 ≠ SigValue.num (130 : ℚ) := by
  refine ⟨?_, ?_, ?_⟩
  · show (generateHeartRate [RVal.f 1] c3Cfg 0).1 = SigValue.num 120
    norm_num [generateHeartRate, c3Cfg, getFloat, clamp, nextF]
  · norm_num [heartRateClaimFormula, c3Cfg, getFloat, clamp]
  · intro h
    have : (120 : ℚ) = 130 := by injection h
    norm_num at this

/-- C4 (amended): when a phase override applies, the effective config is
the merged copy, and the merge is per-field with the documented sentinels
for `baseline`, `noise`, `add`, `multiply`, `value`, `ramp` and
`ramp_to_baseline` — while `rate` and `unit` are always taken from the
base config, never from the override. -/
theorem c4_merge_per_field (store : Store) (sc : Scenario) (signalName : String)
    (elapsed : ℤ) (baseRef : ℕ) (base : SignalConfig) (ph : Phase) (ovRef : ℕ)
    (ov : SignalConfig)
    (hsig : sc.signals.lookup signalName = some baseRef)
    (hbase : store[baseRef]? = some base)
    (hph : getCurrentPhase sc elapsed = some ph)
    (hov : ph.overrides.lookup signalName = some ovRef)
    (hovc : store[ovRef]? = some ov) :
    effectiveConfigVal store sc signalName elapsed = some (mergeOverride base ov) ∧
    (mergeOverride base ov).baseline =
      (if ov.baseline.isSome then ov.baseline else base.baseline) ∧
    (mergeOverride base ov).noise = (if ov.noise.isSome then ov.noise else base.noise) ∧
    (mergeOverride base ov).add = (if ov.add = 0 then base.add else ov.add) ∧
    (mergeOverride base ov).multiply =
      (if ov.multiply = 0 then base.multiply else ov.multiply) ∧
    (mergeOverride base ov).value = (if ov.value = "" then base.value else ov.value) ∧
    (mergeOverride base ov).ramp = (if ov.ramp = "" then base.ramp else ov.ramp) ∧
    (mergeOverride base ov).rampToBaseline =
      (if ov.rampToBaseline = "" then base.rampToBaseline else ov.rampToBaseline) ∧
    (mergeOverride base ov).rate = base.rate ∧
    (mergeOverride base ov).unit = base.unit := by
  refine ⟨?_, ?_, ?_, ?_, ?_, ?_, ?_, ?_, rfl, rfl⟩
  · unfold effectiveConfigVal GetEffectiveConfig
    simp only [hsig, hbase, hph, hov, hovc]
    simp [List.getElem?_concat_length]
  · by_cases h : ov.baseline.isSome <;> simp [mergeOverride, h]
  · by_cases h : ov.noise.isSome <;> simp [mergeOverride, h]
  · by_cases h : ov.add = 0 <;> simp [mergeOverride, h]
  · by_cases h : ov.multiply = 0 <;> simp [mergeOverride, h]
  · by_cases h : ov.value = "" <;> simp [mergeOverride, h]
  · by_cases h : ov.ramp = "" <;> simp [mergeOverride, h]
  · by_cases h : ov.rampToBaseline = "" <;> simp [mergeOverride, h]

/-- C4 witness: the per-field merge at the concrete example scenario. -/
theorem c4_witness :
    effectiveConfigVal c4Store c4Scenario "ppg.hr_bpm" 0 =
      some (mergeOverride c4Base c4Ov) ∧
    (mergeOverride c4Base c4Ov).add = (if c4Ov.add = 0 then c4Base.add else c4Ov.add) ∧
    (mergeOverride c4Base c4Ov).rate = c4Base.rate := by
  have h := c4_merge_per_field c4Store c4Scenario "ppg.hr_bpm" 0 0 c4Base
    { name := "spike", duration := "", overrides := [("ppg.hr_bpm", 1)] } 1 c4Ov
    (by simp [c4Scenario])
    (by simp [c4Store])
    (by simp [getCurrentPhase, getCurrentPhaseGo, c4Scenario, ParseDuration])
    (by simp)
    (by simp [c4Store])
  exact ⟨h.1, h.2.2.2.1, h.2.2.2.2.2.2.2.2.1⟩

/-- C4 counterexample: the override's `rate` field is explicitly set
(`"50hz"`), yet the effective config keeps the base `rate` (`"1hz"`): the
merge does not include `rate` (nor `unit`), contradicting the claim that
every field of `SignalConfig` is merged. -/
theorem c4_counterexample :
    c4Ov.rate = "50hz" ∧ c4Ov.rate ≠ "" ∧
    effectiveConfigVal c4Store c4Scenario "ppg.hr_bpm" 0 =
      some { c4Base with add := 35 } ∧
    ({ c4Base with add := 35 } : SignalConfig).rate = "1hz" ∧
    ("1hz" : String) ≠ "50hz" := by
  refine ⟨rfl, by simp [c4Ov], ?_, rfl, by simp⟩
  simp [effectiveConfigVal, GetEffectiveConfig, getCurrentPhase, getCurrentPhaseGo,
    ParseDuration, c4Store, c4Scenario, mergeOverride, c4Base, c4Ov]

/-- `GetEffectiveConfig` never changes an existing store cell: the store is
at most extended by the freshly merged copy. -/
theorem getEffectiveConfig_preserves (store : Store) (sc : Scenario)
    (signalName : String) (elapsed : ℤ) (i : ℕ) (hi : i < store.length) :
    ((GetEffectiveConfig store sc signalName elapsed).1)[i]? = store[i]? := by
  unfold GetEffectiveConfig
  cases hs : sc.signals.lookup signalName with
  | none => simp only [hs]
  | some baseRef =>
    cases hb : store[baseRef]? with
    | none => simp only [hs, hb]
    | some base =>
      cases hp : getCurrentPhase sc elapsed with
      | none => simp only [hs, hb, hp]
      | some ph =>
        cases ho : ph.overrides.lookup signalName with
        | none => simp only [hs, hb, hp, ho]
        | some ovRef =>
          cases hoc : store[ovRef]? with
          | none => simp only [hs, hb, hp, ho, hoc]
          | some ov =>
            simp only [hs, hb, hp, ho, hoc]
            simp [List.getElem?_append, hi]

/-- C10: `GetEffectiveConfig` (and hence `Engine.GetSignalConfig`) never
mutates the scenario's stored configs — every pre-existing store cell is
unchanged — and when a phase override applies the returned pointer is the
fresh cell at the old store length, distinct from the stored base and
override cells. -/
theorem c10_no_mutation_and_fresh_copy (store : Store) (sc : Scenario)
    (signalName : String) (elapsed : ℤ) :
    (∀ i, i < store.length →
      ((GetEffectiveConfig store sc signalName elapsed).1)[i]? = store[i]?) ∧
    (∀ (baseRef : ℕ) (base : SignalConfig) (ph : Phase) (ovRef : ℕ) (ov : SignalConfig),
      sc.signals.lookup signalName = some baseRef →
      store[baseRef]? = some base →
      getCurrentPhase sc elapsed = some ph →
      ph.overrides.lookup signalName = some ovRef →
      store[ovRef]? = some ov →
      (GetEffectiveConfig store sc signalName elapsed).2 = some store.length ∧
      baseRef ≠ store.length ∧ ovRef ≠ store.length) ∧
    (∀ (eng : Engine) (now : ℤ) (name2 : String) (i : ℕ), i < store.length →
      ((engineGetSignalConfig store eng now name2).1)[i]? = store[i]?) := by
  refine ⟨fun i hi => getEffectiveConfig_preserves store sc signalName elapsed i hi,
    ?_, fun eng now name2 i hi =>
      getEffectiveConfig_preserves store eng.scenario name2 (now - eng.startTime) i hi⟩
  intro baseRef base ph ovRef ov hsig hbase hph hov hovc
  obtain ⟨hblt, -⟩ := List.getElem?_eq_some.mp hbase
  obtain ⟨holt, -⟩ := List.getElem?_eq_some.mp hovc
  refine ⟨?_, Nat.ne_of_lt hblt, Nat.ne_of_lt holt⟩
  unfold GetEffectiveConfig
  simp only [hsig, hbase, hph, hov, hovc]

/-- C10 witness: at the concrete example, the pre-existing cells survive
the call and the merged copy sits at the fresh index 2. -/
theorem c10_witness :
    ((GetEffectiveConfig c4Store c4Scenario "ppg.hr_bpm" 0).1)[0]? = c4Store[0]? ∧
    (GetEffectiveConfig c4Store c4Scenario "ppg.hr_bpm" 0).2 = some 2 ∧
    ((engineGetSignalConfig c4Store { scenario := c4Scenario, startTime := 5 } 5
      "ppg.hr_bpm").1)[1]? = c4Store[1]? := by
  have h := c10_no_mutation_and_fresh_copy c4Store c4Scenario "ppg.hr_bpm" 0
  refine ⟨h.1 0 (by simp [c4Store]), ?_, h.2.2 { scenario := c4Scenario, startTime := 5 } 5
    "ppg.hr_bpm" 1 (by simp [c4Store])⟩
  have h2 := h.2.1 0 c4Base
    { name := "spike", duration := "", overrides := [("ppg.hr_bpm", 1)] } 1 c4Ov
    (by simp [c4Scenario])
    (by simp [c4Store])
    (by simp [getCurrentPhase, getCurrentPhaseGo, c4Scenario, ParseDuration])
    (by simp)
    (by simp [c4Store])
  simpa [c4Store] using h2.1

/-- Neither dispatching nor consuming changes the number of subscribers. -/
theorem applyStep_subs_length (d : DState) (s : RunStep) :
    (applyStep d s).subs.length = d.subs.length := by
  cases s with
  | deliver event => simp [applyStep, dispatch]
  | recv i =>
    simp only [applyStep, consume]
    cases h : d.subs[i]? with
    | none => rfl
    | some sub =>
      cases hb : sub.buf with
      | nil => simp only [hb]
      | cons e t =>
        simp only [hb]
        simp

/-- A whole run preserves the number of subscribers. -/
theorem runSteps_subs_length :
    ∀ (steps : List RunStep) (d : DState),
      (runSteps d steps).subs.length = d.subs.length := by
  intro steps
  induction steps with
  | nil => intro d; rfl
  | cons s rest ih =>
    intro d
    calc (runSteps (applyStep d s) rest).subs.length
        = (applyStep d s).subs.length := ih (applyStep d s)
      _ = d.subs.length := applyStep_subs_length d s

/-- C9 (amended): `subscriber_count` grows by exactly 1 per subscribe call;
after `Run` exits every subscriber channel is closed, but the count stays
at the number of subscribers — `closeSubscribers` never resets the
subscriber slice, so the count does NOT return to 0. -/
theorem c9_subscriber_count (d : DState) (steps : List RunStep) :
    GetSubscriberCount (Subscribe d) = GetSubscriberCount d + 1 ∧
    GetSubscriberCount (Run d steps) = GetSubscriberCount d ∧
    ∀ s ∈ (Run d steps).subs, s.chClosed = true := by
  refine ⟨by simp [GetSubscriberCount, Subscribe], ?_, ?_⟩
  · simp only [GetSubscriberCount, Run, closeSubscribers]
    simp [runSteps_subs_length steps d]
  · intro s hs
    simp only [Run, closeSubscribers, List.mem_map] at hs
    obtain ⟨t, -, rfl⟩ := hs
    rfl

/-- C9 witness: the amended statement at a concrete one-subscriber run. -/
theorem c9_witness :
    GetSubscriberCount (Subscribe (NewDispatcher 10)) =
      GetSubscriberCount (NewDispatcher 10) + 1 ∧
    GetSubscriberCount (Run (Subscribe (NewDispatcher 10)) []) =
      GetSubscriberCount (Subscribe (NewDispatcher 10)) ∧
    (Sub.mk 10 [] [] true).chClosed = true := by
  exact ⟨(c9_subscriber_count (NewDispatcher 10) []).1,
    (c9_subscriber_count (Subscribe (NewDispatcher 10)) []).2.1,
    (c9_subscriber_count (Subscribe (NewDispatcher 10)) []).2.2
      (Sub.mk 10 [] [] true) (by decide)⟩

/-- C9 counterexample: one subscribe, then the run exits (source closed
with no steps); the subscriber count is still 1, not 0. -/
theorem c9_counterexample :
    GetSubscriberCount (Run (Subscribe (NewDispatcher 10)) []) = 1 ∧ (1 : ℕ) ≠ 0 :=
  ⟨rfl, by decide⟩

/-- Reading a subscriber cell after a dispatch: the per-subscriber
non-blocking arm applies pointwise. -/
theorem dispatch_getElem (d : DState) (event : Event) (i : ℕ) :
    (dispatch d event).subs[i]? = (d.subs[i]?).map (fun s => (dispatchSub s event).1) := by
  simp [dispatch]

/-- Per-subscriber FIFO invariant: across any interleaving of dispatches
and receives, what a subscriber has received plus what still sits in its
buffer is an order-preserving subsequence of its initial content followed
by the events the dispatcher observed. -/
theorem runSteps_sub_order :
    ∀ (steps : List RunStep) (d : DState) (i : ℕ) (s0 : Sub),
      d.subs[i]? = some s0 → ∀ s1, (runSteps d steps).subs[i]? = some s1 →
      (s1.delivered ++ s1.buf).Sublist ((s0.delivered ++ s0.buf) ++ observed steps) := by
  intro steps
  induction steps with
  | nil =>
    intro d i s0 h0 s1 h1
    rw [runSteps, h0] at h1
    cases h1
    simp [observed]
  | cons s rest ih =>
    intro d i s0 h0 s1 h1
    rw [runSteps] at h1
    cases s with
    | deliver event =>
      have hmid : (applyStep d (RunStep.deliver event)).subs[i]? =
          some ((dispatchSub s0 event).1) := by
        simp [applyStep, dispatch_getElem, h0]
      have hIH := ih (applyStep d (RunStep.deliver event)) i _ hmid s1 h1
      refine hIH.trans ?_
      have hobs : observed (RunStep.deliver event :: rest) = event :: observed rest := rfl
      rw [hobs]
      by_cases hroom : s0.buf.length < s0.cap
      · have hds : (dispatchSub s0 event).1 = { s0 with buf := s0.buf ++ [event] } := by
          simp [dispatchSub, hroom]
        rw [hds]
        simp
      · have hds : (dispatchSub s0 event).1 = s0 := by
          simp [dispatchSub, hroom]
        rw [hds]
        exact List.Sublist.append_left (List.sublist_cons_self event (observed rest)) _
    | recv j =>
      obtain ⟨s0m, hmid, hpres⟩ : ∃ s0m, (consume d j).subs[i]? = some s0m ∧
          s0m.delivered ++ s0m.buf = s0.delivered ++ s0.buf := by
        by_cases hij : j = i
        · subst hij
          cases hb : s0.buf with
          | nil => exact ⟨s0, by simp [consume, h0, hb], by rw [hb]⟩
          | cons e t =>
            refine ⟨{ s0 with buf := t, delivered := s0.delivered ++ [e] }, ?_, by simp [hb]⟩
            have hlt : j < d.subs.length := (List.getElem?_eq_some.mp h0).1
            simp [consume, h0, hb, List.getElem?_set, hlt]
        · refine ⟨s0, ?_, rfl⟩
          simp only [consume]
          cases hj : d.subs[j]? with
          | none => exact h0
          | some su =>
            cases hbu : su.buf with
            | nil => simp only [hbu]; exact h0
            | cons e t =>
              simp only [hbu]
              simpa [List.getElem?_set, hij] using h0
      have hIH := ih (applyStep d (RunStep.recv j)) i s0m (by simpa [applyStep] using hmid) s1 h1
      rw [hpres] at hIH
      simpa [observed] using hIH

/-- C2: the dispatcher's delivery policy.  Each dispatch performs, per
subscriber, a non-blocking enqueue: the dropped total grows by exactly the
number of subscribers whose buffer was full, a subscriber with room gets
the event appended, a full subscriber's buffer is left untouched; and over
any run, a subscriber that started empty receives its events in exactly
the order the dispatcher observed them (an order-preserving subsequence,
drops allowed). -/
theorem c2_dispatch_nonblocking_policy :
    (∀ (d : DState) (event : Event),
      (dispatch d event).droppedTotal =
        d.droppedTotal + d.subs.countP (fun s => decide (s.cap ≤ s.buf.length)) ∧
      ∀ (i : ℕ) (s : Sub), d.subs[i]? = some s →
        ((s.buf.length < s.cap →
            (dispatch d event).subs[i]? = some { s with buf := s.buf ++ [event] }) ∧
          (s.cap ≤ s.buf.length → (dispatch d event).subs[i]? = some s))) ∧
    (∀ (steps : List RunStep) (d : DState) (i : ℕ) (s0 s1 : Sub),
      d.subs[i]? = some s0 → s0.delivered = [] → s0.buf = [] →
      (runSteps d steps).subs[i]? = some s1 →
      (s1.delivered ++ s1.buf).Sublist (observed steps) ∧
      s1.delivered.Sublist (observed steps)) := by
  constructor
  · intro d event
    constructor
    · simp only [dispatch]
      congr 1
      apply List.countP_congr
      intro s _
      by_cases h : s.buf.length < s.cap
      · simp [dispatchSub, h, Nat.not_le.mpr h]
      · simp [dispatchSub, h, Nat.not_lt.mp h]
    · intro i s hs
      constructor
      · intro hroom
        rw [dispatch_getElem, hs]
        simp [dispatchSub, hroom]
      · intro hfull
        rw [dispatch_getElem, hs]
        simp [dispatchSub, Nat.not_lt.mpr hfull]
  · intro steps d i s0 s1 h0 hdel hbuf h1
    have h := runSteps_sub_order steps d i s0 h0 s1 h1
    rw [hdel, hbuf] at h
    simp only [List.nil_append] at h
    exact ⟨h, (List.sublist_append_left s1.delivered s1.buf).trans h⟩

/-- C2 witness: the delivery policy at a concrete two-subscriber dispatch
(one with room, one full) and a concrete three-step run. -/
theorem c2_witness :
    (dispatch c2D sampleEvent).droppedTotal =
      c2D.droppedTotal + c2D.subs.countP (fun s => decide (s.cap ≤ s.buf.length)) ∧
    (dispatch c2D sampleEvent).subs[0]? =
      some { cap := 1, buf := [sampleEvent] } ∧
    (dispatch c2D sampleEvent).subs[1]? =
      some { cap := 1, buf := [sampleEvent2] } ∧
    (([sampleEvent] : List Event) ++ [sampleEvent2]).Sublist (observed c2Steps) := by
  refine ⟨(c2_dispatch_nonblocking_policy.1 c2D sampleEvent).1, ?_, ?_, ?_⟩
  · exact ((c2_dispatch_nonblocking_policy.1 c2D sampleEvent).2 0 { cap := 1 } rfl).1
      (by decide)
  · exact ((c2_dispatch_nonblocking_policy.1 c2D sampleEvent).2 1
      { cap := 1, buf := [sampleEvent2] } rfl).2 (by decide)
  · exact (c2_dispatch_nonblocking_policy.2 c2Steps c2D0 0 { cap := 2 }
      { cap := 2, buf := [sampleEvent2], delivered := [sampleEvent] } rfl rfl rfl rfl).1

/-- C6 (amended): for the transport-package WebSocket, SSE and UDP servers,
a broadcast with zero connected clients returns nil immediately — no
serialization, no client write, no state change.  (The legacy WebSocket
variant is the exception, see the counterexample.) -/
theorem c6_broadcast_noop_when_no_clients (encode : Event → Bytes) (event : Event)
    (data : Bytes) :
    wsBroadcast encode { clients := [] } event =
      { state := { clients := [] }, encodeCalls := 0, writes := 0, err := none } ∧
    sseBroadcast { clients := [] } data =
      { state := { clients := [] }, encodeCalls := 0, writes := 0, err := none } ∧
    udpBroadcast encode { clients := [] } event =
      { state := { clients := [] }, encodeCalls := 0, writes := 0, err := none } :=
  ⟨rfl, rfl, rfl⟩

/-- C6 counterexample: the legacy WebSocket `Broadcast` (the variant bundled
with `models/event.go`) serializes the envelope even with zero clients —
`json.Marshal` runs before the client loop and there is no early return —
so "performs no serialization" fails for it. -/
theorem c6_counterexample :
    (legacyWsBroadcast (fun _ => []) { clients := [] } sampleEvent).encodeCalls = 1 ∧
    (legacyWsBroadcast (fun _ => []) { clients := [] } sampleEvent).writes = 0 ∧
    (1 : ℕ) ≠ 0 :=
  ⟨rfl, rfl, by decide⟩

/-- The raw replayer sends exactly the file's records, in file order. -/
theorem replayGo_payloads :
    ∀ (records : List Record) (speed : ℚ) (lastTs : Option ℚ) (lineNum : ℕ),
      (replayGo speed lastTs lineNum records).map Prod.snd = records := by
  intro records
  induction records with
  | nil => intro speed lastTs lineNum; rfl
  | cons r rest ih =>
    intro speed lastTs lineNum
    cases h : r.ts with
    | none => simp [replayGo, h, ih]
    | some t0 => simp [replayGo, h, ih]

/-- Between two consecutive records that both carry timestamps the wait is
`(current - previous) / speed` (for nonnegative gaps and positive speed). -/
theorem replayGo_consecutive_ts :
    ∀ (l : List Record) (r1 r2 : Record) (t : List Record) (a b speed : ℚ)
      (lastTs : Option ℚ) (lineNum : ℕ),
      r1.ts = some a → r2.ts = some b → a ≤ b → 0 < speed →
      (replayGo speed lastTs lineNum (l ++ r1 :: r2 :: t))[l.length + 1]? =
        some ((b - a) / speed, r2) := by
  intro l
  induction l with
  | nil =>
    intro r1 r2 t a b speed lastTs lineNum h1 h2 hab hs
    simp only [List.nil_append, List.length_nil, replayGo, h1, h2]
    have hd : (if speed ≠ 1 then (b - a) / speed else b - a) = (b - a) / speed := by
      by_cases hsp : speed = 1 <;> simp [hsp]
    rw [List.getElem?_cons_succ, List.getElem?_cons_zero, hd]
    by_cases hpos : (b - a) / speed > 0
    · simp [hpos]
    · have h0 : (b - a) / speed = 0 :=
        le_antisymm (not_lt.mp hpos) (div_nonneg (by linarith) hs.le)
      simp [hpos, h0]
  | cons x xs ih =>
    intro r1 r2 t a b speed lastTs lineNum h1 h2 hab hs
    cases hx : x.ts with
    | none =>
      simp only [List.cons_append, replayGo, hx, List.length_cons]
      rw [List.getElem?_cons_succ]
      exact ih r1 r2 t a b speed lastTs (lineNum + 1) h1 h2 hab hs
    | some tx =>
      simp only [List.cons_append, replayGo, hx, List.length_cons]
      rw [List.getElem?_cons_succ]
      exact ih r1 r2 t a b speed (some tx) (lineNum + 1) h1 h2 hab hs

/-- A record from which no timestamp can be extracted waits the fixed
100 ms whenever it is not the first line. -/
theorem replayGo_no_ts :
    ∀ (l : List Record) (r : Record) (t : List Record) (speed : ℚ)
      (lastTs : Option ℚ) (lineNum : ℕ),
      r.ts = none → 1 < lineNum + l.length →
      (replayGo speed lastTs lineNum (l ++ r :: t))[l.length]? = some (waitNoTs, r) := by
  intro l
  induction l with
  | nil =>
    intro r t speed lastTs lineNum hr hn
    simp only [List.length_nil, Nat.add_zero] at hn
    simp [replayGo, hr, hn]
  | cons x xs ih =>
    intro r t speed lastTs lineNum hr hn
    simp only [List.length_cons] at hn
    cases hx : x.ts with
    | none =>
      simp only [List.cons_append, replayGo, hx, List.length_cons]
      rw [List.getElem?_cons_succ]
      exact ih r t speed lastTs (lineNum + 1) hr (by omega)
    | some tx =>
      simp only [List.cons_append, replayGo, hx, List.length_cons]
      rw [List.getElem?_cons_succ]
      exact ih r t speed (some tx) (lineNum + 1) hr (by omega)

/-- `Replay` with `loop` unrolls into whole passes: one pass without loop,
`n + 1` passes when the cancellation check lets `n` iterations through. -/
theorem Replay_unrolls (speed : ℚ) (records : List Record) :
    ∀ n : ℕ, Replay speed records false n = replayOnce speed records ∧
      Replay speed records true n =
        (List.replicate (n + 1) (replayOnce speed records)).flatten := by
  intro n
  induction n with
  | zero => exact ⟨rfl, by simp [Replay]⟩
  | succ n ih =>
    refine ⟨rfl, ?_⟩
    show replayOnce speed records ++ Replay speed records true n = _
    rw [ih.2]
    simp [List.replicate_succ]

/-- C7: the raw replayer sends records in file order; between consecutive
timestamped records it waits `(current.ts - previous.ts) / speed`; a record
without an extractable timestamp waits the fixed 100 ms (never on line 1,
where no wait happens at all); without `loop` it performs exactly one pass,
and with `loop` it repeats whole passes until the cancellation check fires,
at which point it exits (the run trace is finite). -/
theorem c7_replay_pacing (speed : ℚ) (records : List Record) :
    ((replayOnce speed records).map Prod.snd = records) ∧
    (∀ (l t : List Record) (r1 r2 : Record) (a b : ℚ),
      records = l ++ r1 :: r2 :: t → r1.ts = some a → r2.ts = some b →
      a ≤ b → 0 < speed →
      (replayOnce speed records)[l.length + 1]? = some ((b - a) / speed, r2)) ∧
    (∀ (l t : List Record) (r : Record),
      records = l ++ r :: t → r.ts = none → l ≠ [] →
      (replayOnce speed records)[l.length]? = some (waitNoTs, r)) ∧
    (∀ (r : Record) (t : List Record), records = r :: t →
      (replayOnce speed records)[0]? = some (0, r)) ∧
    (∀ n : ℕ, Replay speed records false n = replayOnce speed records) ∧
    (∀ n : ℕ, Replay speed records true n =
      (List.replicate (n + 1) (replayOnce speed records)).flatten) := by
  refine ⟨replayGo_payloads records speed none 1, ?_, ?_, ?_,
    fun n => (Replay_unrolls speed records n).1,
    fun n => (Replay_unrolls speed records n).2⟩
  · intro l t r1 r2 a b hrec h1 h2 hab hs
    subst hrec
    exact replayGo_consecutive_ts l r1 r2 t a b speed none 1 h1 h2 hab hs
  · intro l t r hrec hr hl
    subst hrec
    have : 0 < l.length := List.length_pos.mpr hl
    exact replayGo_no_ts l r t speed none 1 hr (by omega)
  · intro r t hrec
    subst hrec
    cases hr : r.ts with
    | none => simp [replayOnce, replayGo, hr]
    | some a => simp [replayOnce, replayGo, hr]

/-- C7 witness: the pacing at a concrete three-record recording replayed at
speed 2 — a 2 s gap becomes a 1 s wait, the timestampless third record
waits 100 ms, and looping with one allowed check yields two passes. -/
theorem c7_witness :
    ((replayOnce 2 c7Records).map Prod.snd = c7Records) ∧
    (replayOnce 2 c7Records)[1]? =
      some ((2000000000 - 0) / 2, { ts := some 2000000000, payload := 2 }) ∧
    (replayOnce 2 c7Records)[2]? = some (waitNoTs, { ts := none, payload := 3 }) ∧
    (replayOnce 2 c7Records)[0]? = some (0, { ts := some 0, payload := 1 }) ∧
    Replay 2 c7Records true 1 =
      (List.replicate 2 (replayOnce 2 c7Records)).flatten := by
  have h := c7_replay_pacing 2 c7Records
  refine ⟨h.1, ?_, ?_, ?_, h.2.2.2.2.2 1⟩
  · exact h.2.1 [] [{ ts := none, payload := 3 }] { ts := some 0, payload := 1 }
      { ts := some 2000000000, payload := 2 } 0 2000000000 rfl rfl rfl
      (by norm_num) (by norm_num)
  · exact h.2.2.1 [{ ts := some 0, payload := 1 }, { ts := some 2000000000, payload := 2 }]
      [] { ts := none, payload := 3 } rfl rfl (by simp)
  · exact h.2.2.2.1 { ts := some 0, payload := 1 }
      [{ ts := some 2000000000, payload := 2 }, { ts := none, payload := 3 }] rfl

/-- C8: a well-formed authorized POST whose idempotency key is unseen gets
200 with `duplicate=false`; an identical re-submission gets 200 with
`duplicate=true`; BOTH submissions are written through to the output
writer, and the receipt counts equal the payload array lengths. -/
theorem c8_import_idempotent_write_through (cfg : RConfig) (st : ServerState)
    (r : Request) (t1 t2 : String) (e : HSIExport)
    (hm : r.method = "POST")
    (ha : validateAuth cfg.token r.authorization = true)
    (hh : validateHeaders r = none)
    (hb : r.bodyReadOk = true)
    (hp : r.body = some e)
    (hv : Validate e = none)
    (hk : st.seen.contains
      (if r.idemKeyHeader ≠ "" then r.idemKeyHeader else r.exportIdHeader) = false) :
    (handleImport cfg st r t1).1.status = 200 ∧
    (handleImport cfg st r t1).1.receipt = some (NewExportReceipt e false t1) ∧
    (NewExportReceipt e false t1).duplicate = false ∧
    (NewExportReceipt e false t1).summaryCount = e.summaries.length ∧
    (NewExportReceipt e false t1).insightCount = e.insights.length ∧
    (handleImport cfg st r t1).2.written = st.written ++ [e] ∧
    (handleImport cfg (handleImport cfg st r t1).2 r t2).1.status = 200 ∧
    (handleImport cfg (handleImport cfg st r t1).2 r t2).1.receipt =
      some (NewExportReceipt e true t2) ∧
    (NewExportReceipt e true t2).duplicate = true ∧
    (handleImport cfg (handleImport cfg st r t1).2 r t2).2.written =
      st.written ++ [e, e] := by
  have h1 : handleImport cfg st r t1 =
      ({ status := 200, receipt := some (NewExportReceipt e false t1) },
       { seen := st.seen ++
           [if r.idemKeyHeader ≠ "" then r.idemKeyHeader else r.exportIdHeader]
         stats := { st.stats with totalReceived := st.stats.totalReceived + 1 }
         written := st.written ++ [e] }) := by
    have hk2 : ¬ ((if r.idemKeyHeader = "" then r.exportIdHeader else r.idemKeyHeader)
        ∈ st.seen) := by simpa using hk
    simp [handleImport, hm, ha, hh, hb, hp, hv, hk2]
  have h2 : handleImport cfg (handleImport cfg st r t1).2 r t2 =
      ({ status := 200, receipt := some (NewExportReceipt e true t2) },
       { seen := (st.seen ++
           [if r.idemKeyHeader ≠ "" then r.idemKeyHeader else r.exportIdHeader]) ++
           [if r.idemKeyHeader ≠ "" then r.idemKeyHeader else r.exportIdHeader]
         stats := { st.stats with
           totalReceived := st.stats.totalReceived + 2
           totalDuplicates := st.stats.totalDuplicates + 1 }
         written := (st.written ++ [e]) ++ [e] }) := by
    rw [h1]
    simp [handleImport, hm, ha, hh, hb, hp, hv]
  rw [h2, h1]
  refine ⟨rfl, rfl, rfl, rfl, rfl, rfl, rfl, rfl, rfl, by simp⟩

/-- C8 witness: the double-submission behaviour at the repository's own
test fixture (export `test-123`, idempotency key `K1`). -/
theorem c8_witness :
    (handleImport { token := "sh_secrettoken" } {} c8Request "t1").1.status = 200 ∧
    (handleImport { token := "sh_secrettoken" } {} c8Request "t1").1.receipt =
      some (NewExportReceipt c8Export false "t1") ∧
    (NewExportReceipt c8Export false "t1").summaryCount = 1 ∧
    (NewExportReceipt c8Export false "t1").insightCount = 0 ∧
    (handleImport { token := "sh_secrettoken" }
        (handleImport { token := "sh_secrettoken" } {} c8Request "t1").2
        c8Request "t2").1.receipt = some (NewExportReceipt c8Export true "t2") ∧
    (handleImport { token := "sh_secrettoken" }
        (handleImport { token := "sh_secrettoken" } {} c8Request "t1").2
        c8Request "t2").2.written = [c8Export, c8Export] := by
  have h := c8_import_idempotent_write_through { token := "sh_secrettoken" } {}
    c8Request "t1" "t2" c8Export rfl (by decide) (by decide) rfl rfl (by decide) rfl
  exact ⟨h.1, h.2.1, h.2.2.2.1, h.2.2.2.2.1, h.2.2.2.2.2.2.2.1,
    by simpa using h.2.2.2.2.2.2.2.2.2⟩

/-- C5: `createEvent` stamps `session.seed` with a fresh `Int63` draw from
the generator's shared RNG (after the quality `Float64` draw), so the
field holds the stream's next integer draw — not the configured seed,
which `NewGenerator` does not even retain — and successive events carry
successive draws. -/
theorem c5_session_seed_is_rng_draw (g : GenState) (name1 name2 : String)
    (v1 v2 : SigValue) (cf1 cf2 : SignalConfig) (id1 id2 ts1 ts2 : String)
    (q1 q2 : ℚ) (d1 d2 : ℤ) (rest : Rng)
    (hrng : g.rng = RVal.f q1 :: RVal.i d1 :: RVal.f q2 :: RVal.i d2 :: rest) :
    (createEvent g name1 v1 cf1 id1 ts1).1.session.seed = d1 ∧
    (createEvent (createEvent g name1 v1 cf1 id1 ts1).2 name2 v2 cf2
      id2 ts2).1.session.seed = d2 := by
  simp [createEvent, NewEvent, nextF, nextI, hrng]

/-- C5 witness: in a run configured with seed 42 whose stream yields the
integer draws 7 then 9 at the two seed sampling points, the first two
events carry `session.seed` 7 and 9 — two distinct values, neither 42. -/
theorem c5_witness :
    (createEvent c5Gen "ppg.hr_bpm" (SigValue.num 72) {} "e1" "t1").1.session.seed = 7 ∧
    (createEvent (createEvent c5Gen "ppg.hr_bpm" (SigValue.num 72) {} "e1" "t1").2
      "ppg.hrv_rmssd_ms" (SigValue.num 50) {} "e2" "t2").1.session.seed = 9 ∧
    (7 : ℤ) ≠ 42 ∧ (7 : ℤ) ≠ 9 := by
  have h := c5_session_seed_is_rng_draw c5Gen "ppg.hr_bpm" "ppg.hrv_rmssd_ms"
    (SigValue.num 72) (SigValue.num 50) {} {} "e1" "e2" "t1" "t2" 0 0 7 9 [] rfl
  exact ⟨h.1, h.2, by decide, by decide⟩

/-- C1: per-tick signal values are NOT a function of (seed, scenario,
elapsed) alone — they also depend on the iteration order of the
`g.signals` Go map, which the runtime randomizes per run.  With identical
seeded draw stream, configs and elapsed times, the two iteration orders of
the two-signal map (legal orders both, being permutations of each other)
hand different standard-normal draws to the heart-rate generator and so
yield different `signal.value`s: 72.3 versus 72.6 bpm. -/
theorem c1_map_order_breaks_determinism :
    (["ppg.hrv_rmssd_ms", "ppg.hr_bpm"] : List String).Perm
      ["ppg.hr_bpm", "ppg.hrv_rmssd_ms"] ∧
    (tickValues zeroEnv c1GetCfg ["ppg.hr_bpm", "ppg.hrv_rmssd_ms"] 0 2000000000
      c1Gen).lookup "ppg.hr_bpm" = some (SigValue.num (723 / 10)) ∧
    (tickValues zeroEnv c1GetCfg ["ppg.hrv_rmssd_ms", "ppg.hr_bpm"] 0 2000000000
      c1Gen).lookup "ppg.hr_bpm" = some (SigValue.num (363 / 5)) ∧
    SigValue.num (723 / 10) ≠ SigValue.num ((363 : ℚ) / 5) := by
  have hlk1 : GetAllSignals.lookup "ppg.hr_bpm" = some (fun _ => generateHeartRate) := rfl
  have hlk2 : GetAllSignals.lookup "ppg.hrv_rmssd_ms" = some (fun _ => generateHRV) := rfl
  have hc1 : c1GetCfg "ppg.hr_bpm" = some {} := rfl
  have hc2 : c1GetCfg "ppg.hrv_rmssd_ms" = some {} := rfl
  have ghr : generateHeartRate [RVal.f (1/10), RVal.f (1/5)] ({} : SignalConfig) 0 =
      (SigValue.num (723/10), [RVal.f (1/5)]) := by
    norm_num [generateHeartRate, getFloat, clamp, nextF]
  have ghrv : generateHRV [RVal.f (1/5)] ({} : SignalConfig) 0 =
      (SigValue.num (258/5), []) := by
    norm_num [generateHRV, getFloat, clamp, nextF]
  have ghrv2 : generateHRV [RVal.f (1/10), RVal.f (1/5)] ({} : SignalConfig) 0 =
      (SigValue.num (254/5), [RVal.f (1/5)]) := by
    norm_num [generateHRV, getFloat, clamp, nextF]
  have ghr2 : generateHeartRate [RVal.f (1/5)] ({} : SignalConfig) 0 =
      (SigValue.num (363/5), []) := by
    norm_num [generateHeartRate, getFloat, clamp, nextF]
  have hb1 : ("ppg.hrv_rmssd_ms" == "ppg.hr_bpm") = false := rfl
  have hb2 : ("ppg.hr_bpm" == "ppg.hrv_rmssd_ms") = false := rfl
  have hb3 : ("ppg.hr_bpm" == "ppg.hr_bpm") = true := rfl
  have hb4 : ("ppg.hrv_rmssd_ms" == "ppg.hrv_rmssd_ms") = true := rfl
  have hb5 : ("accel.xyz_mps2" == "ppg.hr_bpm") = false := rfl
  have hb6 : ("accel.xyz_mps2" == "ppg.hrv_rmssd_ms") = false := rfl
  have hb7 : ("eda.us" == "ppg.hr_bpm") = false := rfl
  have hb8 : ("eda.us" == "ppg.hrv_rmssd_ms") = false := rfl
  have hb9 : ("motion.activity" == "ppg.hr_bpm") = false := rfl
  have hb10 : ("motion.activity" == "ppg.hrv_rmssd_ms") = false := rfl
  have t1 : tickGenerate zeroEnv c1GetCfg 0 2000000000
      ["ppg.hr_bpm", "ppg.hrv_rmssd_ms"] c1Gen []
      = ([("ppg.hr_bpm", SigValue.num (723/10)), ("ppg.hrv_rmssd_ms", SigValue.num (258/5))],
         { c1Gen with rng := [], lastEmit := [("ppg.hr_bpm", 2000000000), ("ppg.hrv_rmssd_ms", 2000000000)] }) := by
    simp only [tickGenerate, hlk1, hlk2, hc1, hc2]
    norm_num [getSignalRate, c1Gen, setAssoc, ctxSet, ghr, ghrv, List.lookup, hb1, hb2, hb3, hb4]
  have t2 : tickGenerate zeroEnv c1GetCfg 0 2000000000
      ["ppg.hrv_rmssd_ms", "ppg.hr_bpm"] c1Gen []
      = ([("ppg.hrv_rmssd_ms", SigValue.num (254/5)), ("ppg.hr_bpm", SigValue.num (363/5))],
         { c1Gen with rng := [], lastEmit := [("ppg.hrv_rmssd_ms", 2000000000), ("ppg.hr_bpm", 2000000000)] }) := by
    simp only [tickGenerate, hlk1, hlk2, hc1, hc2]
    norm_num [getSignalRate, c1Gen, setAssoc, ctxSet, ghr2, ghrv2, List.lookup, hb1, hb2, hb3, hb4]
  refine ⟨by decide, ?_, ?_, ?_⟩
  · unfold tickValues
    rw [t1]
    norm_num [applyCorrelations, List.lookup, hb3, hb4, hb5, hb6, hb7, hb8, hb9, hb10, hb1, hb2]
  · unfold tickValues
    rw [t2]
    norm_num [applyCorrelations, List.lookup, hb3, hb4, hb5, hb6, hb7, hb8, hb9, hb10, hb1, hb2]
  · intro h
    have h2 : (723 / 10 : ℚ) = 363 / 5 := by injection h
    norm_num at h2

end Synheart
